import Mathlib

/-!
Verification of the CoDSPy three-stage code-analysis pipeline.

The repository has two variants of the same application:
`v1_CoT_CodeLlama.py` (ChainOfThought prompting) and `v3_ReAct.py`
(ReAct prompting with stub tools).  Each variant defines three stage
classes (`CodeAnalyzer`, `CodeOptimizer`, `TestGenerator`), an
orchestrator (`CodeForge.process`) that assembles a five-field result
dictionary, and a UI handler (`process_code`) that validates the input.

Embedding choices:
* The underlying language-model invocation (a `dspy.ChainOfThought` /
  `dspy.ReAct` program call) is the single external effect.  It is
  modelled by an abstract backend `LM` that, for each of the three stage
  signatures, deterministically either returns a prediction record or
  raises a Python exception carrying a message string (`Except String`).
* Python dictionaries returned by the stages and by the orchestrator are
  modelled as association lists `List (String × String)`, so that "which
  keys are present" is expressible; the subscript access `d[k]` raises a
  `KeyError` when the key is absent, exactly as in Python.
* Computations are written in the monad `PipeM`, an exception monad
  (uncaught Python exceptions: `KeyError`, `gr.Error`) layered over a
  state monad accumulating the trace of model calls, so that call order
  and call arguments are observable.
-/

/-- A Python exception that is not caught anywhere in the repository:
either a `KeyError` from a dictionary subscript, or the `gr.Error`
raised by `process_code` on empty input. -/
inductive PyErr where
  | keyError (key : String)
  | grError (msg : String)
deriving DecidableEq

/-- One invocation of the configured language model, tagged by which of
the three dspy programs performed it, together with its arguments. -/
inductive Call where
  | analyzeLM (code : String)
  | optimizeLM (code : String) (suggestions : String)
  | testsLM (code : String)
deriving DecidableEq

/-- The prediction returned by the dspy program with signature
`code -> issues, suggestions`. -/
structure AnalyzePrediction where
  issues : String
  suggestions : String
deriving DecidableEq

/-- The prediction returned by the dspy program with signature
`code, suggestions -> optimized_code`. -/
structure OptimizePrediction where
  optimized_code : String
deriving DecidableEq

/-- The prediction returned by the dspy program with signature
`code -> test_cases, test_code`. -/
structure TestsPrediction where
  test_cases : String
  test_code : String
deriving DecidableEq

/-- Abstract behaviour of the configured language model: for each stage
signature, the call either completes with a prediction (`Except.ok`) or
raises an exception with message `e` (`Except.error e`). -/
structure LM where
  onAnalyze : String → Except String AnalyzePrediction
  onOptimize : String → String → Except String OptimizePrediction
  onTests : String → Except String TestsPrediction

/-- The pipeline monad: uncaught Python exceptions over a trace of
model calls. -/
abbrev PipeM (α : Type) : Type := ExceptT PyErr (StateM (List Call)) α

/-- Run a pipeline computation on the empty trace, returning the final
outcome (normal value or uncaught exception) and the list of model
calls that were made. -/
def runPipe {α : Type} (x : PipeM α) : Except PyErr α × List Call :=
  (x.run).run []

/-- Invoke the model for the `code -> issues, suggestions` signature,
recording the call. -/
def lmCallAnalyze (lm : LM) (code : String) :
    PipeM (Except String AnalyzePrediction) := do
  modify (fun tr => tr ++ [Call.analyzeLM code])
  pure (lm.onAnalyze code)

/-- Invoke the model for the `code, suggestions -> optimized_code`
signature, recording the call. -/
def lmCallOptimize (lm : LM) (code suggestions : String) :
    PipeM (Except String OptimizePrediction) := do
  modify (fun tr => tr ++ [Call.optimizeLM code suggestions])
  pure (lm.onOptimize code suggestions)

/-- Invoke the model for the `code -> test_cases, test_code` signature,
recording the call. -/
def lmCallTests (lm : LM) (code : String) :
    PipeM (Except String TestsPrediction) := do
  modify (fun tr => tr ++ [Call.testsLM code])
  pure (lm.onTests code)

/-- Python dictionary subscript `d[k]`: the value when the key is
present, a `KeyError` otherwise. -/
def dictGet (d : List (String × String)) (k : String) : Except PyErr String :=
  match d.lookup k with
  | some v => Except.ok v
  | none => Except.error (PyErr.keyError k)

/-- The ASCII whitespace characters removed by Python `str.strip()`. -/
def pyIsSpace (c : Char) : Bool :=
  c = ' ' || c = '\t' || c = '\n' || c = '\r' || c = '\x0b' || c = '\x0c'

/-- Python `s.strip()`: remove leading and trailing whitespace. -/
def pyStrip (s : String) : String :=
  String.mk (((s.data.dropWhile pyIsSpace).reverse.dropWhile pyIsSpace).reverse)

/-- Model configuration installed by `CodeForge.__init__` via
`dspy.configure(lm=dspy.OllamaLocal(...))`. -/
structure LMConfig where
  model : String
  device : String
  temperature : ℚ
deriving DecidableEq

namespace V1

/-- `CodeAnalyzer.analyze` from `v1_CoT_CodeLlama.py`: call the
ChainOfThought program; on success return the dict with keys `issues`
and `suggestions` taken from the prediction; on any exception return
the placeholder dict embedding the error message. -/
def CodeAnalyzer.analyze (lm : LM) (code : String) :
    PipeM (List (String × String)) := do
  let r ← lmCallAnalyze lm code
  match r with
  | Except.ok prediction =>
      pure [("issues", prediction.issues),
            ("suggestions", prediction.suggestions)]
  | Except.error e =>
      pure [("issues", "Analysis error: " ++ e),
            ("suggestions", "No suggestions available")]

/-- `CodeOptimizer.optimize` from `v1_CoT_CodeLlama.py`: call the
ChainOfThought program; on success return `prediction.optimized_code`;
on any exception return the placeholder string embedding the error
message. -/
def CodeOptimizer.optimize (lm : LM) (code suggestions : String) :
    PipeM String := do
  let r ← lmCallOptimize lm code suggestions
  match r with
  | Except.ok prediction => pure prediction.optimized_code
  | Except.error e => pure ("Optimization error: " ++ e)

/-- `TestGenerator.create_tests` from `v1_CoT_CodeLlama.py`: call the
ChainOfThought program; on success return the dict with keys
`test_cases` and `test_code`; on any exception return the placeholder
dict. -/
def TestGenerator.create_tests (lm : LM) (code : String) :
    PipeM (List (String × String)) := do
  let r ← lmCallTests lm code
  match r with
  | Except.ok prediction =>
      pure [("test_cases", prediction.test_cases),
            ("test_code", prediction.test_code)]
  | Except.error e =>
      pure [("test_cases", "Test generation failed: " ++ e),
            ("test_code", "Unable to generate test code")]

/-- `CodeForge.process` from `v1_CoT_CodeLlama.py`: run the three
stages in order and assemble the five-key result dictionary.  Each
dictionary subscript is modelled by `dictGet`, which raises a
`KeyError` when the key is absent. -/
def CodeForge.process (lm : LM) (code : String) :
    PipeM (List (String × String)) := do
  let analysis ← CodeAnalyzer.analyze lm code
  let suggestionsArg ← ExceptT.mk (pure (dictGet analysis "suggestions"))
  let optimized ← CodeOptimizer.optimize lm code suggestionsArg
  let tests ← TestGenerator.create_tests lm code
  let issuesV ← ExceptT.mk (pure (dictGet analysis "issues"))
  let suggestionsV ← ExceptT.mk (pure (dictGet analysis "suggestions"))
  let testCasesV ← ExceptT.mk (pure (dictGet tests "test_cases"))
  let testCodeV ← ExceptT.mk (pure (dictGet tests "test_code"))
  pure [("issues", issuesV),
        ("suggestions", suggestionsV),
        ("optimized_code", optimized),
        ("test_cases", testCasesV),
        ("test_code", testCodeV)]

/-- `CodeForge.process` run on the empty trace. -/
def CodeForge.processRun (lm : LM) (code : String) :
    Except PyErr (List (String × String)) × List Call :=
  runPipe (CodeForge.process lm code)

/-- The configuration installed by `CodeForge.__init__` in
`v1_CoT_CodeLlama.py`. -/
def lmConfig : LMConfig :=
  { model := "codellama:7b", device := "cuda", temperature := 1/5 }

/-- `process_code` from `v1_CoT_CodeLlama.py`: the Gradio click
handler.  If the stripped input is empty it raises `gr.Error`;
otherwise it runs the pipeline and returns the five field values in
tab order. -/
def process_code (lm : LM) (code : String) :
    PipeM (String × String × String × String × String) := do
  if pyStrip code = "" then
    throw (PyErr.grError "Please input some code to analyze!")
  else
    let results ← CodeForge.process lm code
    let issuesV ← ExceptT.mk (pure (dictGet results "issues"))
    let suggestionsV ← ExceptT.mk (pure (dictGet results "suggestions"))
    let optimizedV ← ExceptT.mk (pure (dictGet results "optimized_code"))
    let testCasesV ← ExceptT.mk (pure (dictGet results "test_cases"))
    let testCodeV ← ExceptT.mk (pure (dictGet results "test_code"))
    pure (issuesV, suggestionsV, optimizedV, testCasesV, testCodeV)

/-- `process_code` run on the empty trace. -/
def process_codeRun (lm : LM) (code : String) :
    Except PyErr (String × String × String × String × String) × List Call :=
  runPipe (process_code lm code)

end V1

namespace V3

/-- Stub tool `CodeAnalyzer._analyze_code` from `v3_ReAct.py`: returns
a static descriptive string. -/
def CodeAnalyzer._analyze_code (code : String) : String :=
  "Analyzing code for potential issues..."

/-- Stub tool `CodeAnalyzer._generate_suggestions` from `v3_ReAct.py`:
returns a static descriptive string. -/
def CodeAnalyzer._generate_suggestions (issues : String) : String :=
  "Generating optimization suggestions based on issues..."

/-- Stub tool `CodeOptimizer._optimize_code` from `v3_ReAct.py`:
returns a static descriptive string. -/
def CodeOptimizer._optimize_code (code : String) : String :=
  "Optimizing code structure..."

/-- Stub tool `CodeOptimizer._refactor_code` from `v3_ReAct.py`:
returns a static descriptive string. -/
def CodeOptimizer._refactor_code (code : String) : String :=
  "Refactoring code for better readability..."

/-- Stub tool `TestGenerator._generate_test_cases` from `v3_ReAct.py`:
returns a static descriptive string. -/
def TestGenerator._generate_test_cases (code : String) : String :=
  "Generating test cases..."

/-- Stub tool `TestGenerator._write_test_code` from `v3_ReAct.py`:
returns a static descriptive string. -/
def TestGenerator._write_test_code (test_cases : String) : String :=
  "Writing test code implementation..."

/-- `CodeAnalyzer.analyze` from `v3_ReAct.py`: call the ReAct program
(the model invocation, with the stub tools available to it); on success
return the dict with keys `issues` and `suggestions`; on any exception
return the placeholder dict embedding the error message. -/
def CodeAnalyzer.analyze (lm : LM) (code : String) :
    PipeM (List (String × String)) := do
  let r ← lmCallAnalyze lm code
  match r with
  | Except.ok prediction =>
      pure [("issues", prediction.issues),
            ("suggestions", prediction.suggestions)]
  | Except.error e =>
      pure [("issues", "Analysis error: " ++ e),
            ("suggestions", "No suggestions available")]

/-- `CodeOptimizer.optimize` from `v3_ReAct.py`: call the ReAct
program; on success return `prediction.optimized_code`; on any
exception return the placeholder string. -/
def CodeOptimizer.optimize (lm : LM) (code suggestions : String) :
    PipeM String := do
  let r ← lmCallOptimize lm code suggestions
  match r with
  | Except.ok prediction => pure prediction.optimized_code
  | Except.error e => pure ("Optimization error: " ++ e)

/-- `TestGenerator.create_tests` from `v3_ReAct.py`: call the ReAct
program; on success return the dict with keys `test_cases` and
`test_code`; on any exception return the placeholder dict. -/
def TestGenerator.create_tests (lm : LM) (code : String) :
    PipeM (List (String × String)) := do
  let r ← lmCallTests lm code
  match r with
  | Except.ok prediction =>
      pure [("test_cases", prediction.test_cases),
            ("test_code", prediction.test_code)]
  | Except.error e =>
      pure [("test_cases", "Test generation failed: " ++ e),
            ("test_code", "Unable to generate test code")]

/-- `CodeForge.process` from `v3_ReAct.py` (the "Core System
(Unchanged)" section): run the three stages in order and assemble the
five-key result dictionary. -/
def CodeForge.process (lm : LM) (code : String) :
    PipeM (List (String × String)) := do
  let analysis ← CodeAnalyzer.analyze lm code
  let suggestionsArg ← ExceptT.mk (pure (dictGet analysis "suggestions"))
  let optimized ← CodeOptimizer.optimize lm code suggestionsArg
  let tests ← TestGenerator.create_tests lm code
  let issuesV ← ExceptT.mk (pure (dictGet analysis "issues"))
  let suggestionsV ← ExceptT.mk (pure (dictGet analysis "suggestions"))
  let testCasesV ← ExceptT.mk (pure (dictGet tests "test_cases"))
  let testCodeV ← ExceptT.mk (pure (dictGet tests "test_code"))
  pure [("issues", issuesV),
        ("suggestions", suggestionsV),
        ("optimized_code", optimized),
        ("test_cases", testCasesV),
        ("test_code", testCodeV)]

/-- `CodeForge.process` run on the empty trace. -/
def CodeForge.processRun (lm : LM) (code : String) :
    Except PyErr (List (String × String)) × List Call :=
  runPipe (CodeForge.process lm code)

/-- The configuration installed by `CodeForge.__init__` in
`v3_ReAct.py`. -/
def lmConfig : LMConfig :=
  { model := "llama3.2:3b", device := "cuda", temperature := 1/5 }

/-- `process_code` from `v3_ReAct.py`: the Gradio click handler,
identical in text to the one in `v1_CoT_CodeLlama.py`. -/
def process_code (lm : LM) (code : String) :
    PipeM (String × String × String × String × String) := do
  if pyStrip code = "" then
    throw (PyErr.grError "Please input some code to analyze!")
  else
    let results ← CodeForge.process lm code
    let issuesV ← ExceptT.mk (pure (dictGet results "issues"))
    let suggestionsV ← ExceptT.mk (pure (dictGet results "suggestions"))
    let optimizedV ← ExceptT.mk (pure (dictGet results "optimized_code"))
    let testCasesV ← ExceptT.mk (pure (dictGet results "test_cases"))
    let testCodeV ← ExceptT.mk (pure (dictGet results "test_code"))
    pure (issuesV, suggestionsV, optimizedV, testCasesV, testCodeV)

/-- `process_code` run on the empty trace. -/
def process_codeRun (lm : LM) (code : String) :
    Except PyErr (String × String × String × String × String) × List Call :=
  runPipe (process_code lm code)

end V3

/-- The `issues` value the Analyzer stage produces for a given model
behaviour: the prediction's field on success, the placeholder embedding
the error message on failure. -/
def analyzeIssues (lm : LM) (code : String) : String :=
  match lm.onAnalyze code with
  | Except.ok p => p.issues
  | Except.error e => "Analysis error: " ++ e

/-- The `suggestions` value the Analyzer stage produces for a given
model behaviour. -/
def analyzeSuggestions (lm : LM) (code : String) : String :=
  match lm.onAnalyze code with
  | Except.ok p => p.suggestions
  | Except.error _ => "No suggestions available"

/-- The string the Optimizer stage produces for a given model
behaviour. -/
def optimizeResult (lm : LM) (code suggestions : String) : String :=
  match lm.onOptimize code suggestions with
  | Except.ok p => p.optimized_code
  | Except.error e => "Optimization error: " ++ e

/-- The `test_cases` value the Test-generator stage produces for a
given model behaviour. -/
def testCasesResult (lm : LM) (code : String) : String :=
  match lm.onTests code with
  | Except.ok p => p.test_cases
  | Except.error e => "Test generation failed: " ++ e

/-- The `test_code` value the Test-generator stage produces for a
given model behaviour. -/
def testCodeResult (lm : LM) (code : String) : String :=
  match lm.onTests code with
  | Except.ok p => p.test_code
  | Except.error _ => "Unable to generate test code"

/-- The dictionary the Analyzer stage returns. -/
def analyzeDict (lm : LM) (code : String) : List (String × String) :=
  [("issues", analyzeIssues lm code),
   ("suggestions", analyzeSuggestions lm code)]

/-- The dictionary the Test-generator stage returns. -/
def testsDict (lm : LM) (code : String) : List (String × String) :=
  [("test_cases", testCasesResult lm code),
   ("test_code", testCodeResult lm code)]

/-- The five-key dictionary the orchestrator returns. -/
def resultDict (lm : LM) (code : String) : List (String × String) :=
  [("issues", analyzeIssues lm code),
   ("suggestions", analyzeSuggestions lm code),
   ("optimized_code", optimizeResult lm code (analyzeSuggestions lm code)),
   ("test_cases", testCasesResult lm code),
   ("test_code", testCodeResult lm code)]

/-- The sequence of model calls one orchestrator run performs. -/
def pipelineTrace (lm : LM) (code : String) : List Call :=
  [Call.analyzeLM code,
   Call.optimizeLM code (analyzeSuggestions lm code),
   Call.testsLM code]

/-- A model backend on which every call succeeds with fixed
predictions; used to instantiate universally quantified theorems. -/
def lmAllOk : LM :=
  { onAnalyze := fun _ => Except.ok ⟨"iss", "sug"⟩,
    onOptimize := fun _ _ => Except.ok ⟨"opt"⟩,
    onTests := fun _ => Except.ok ⟨"tcases", "tcode"⟩ }

/-- A model backend on which every call raises an exception with
message `boom`; used to instantiate universally quantified theorems. -/
def lmAllFail : LM :=
  { onAnalyze := fun _ => Except.error "boom",
    onOptimize := fun _ _ => Except.error "boom",
    onTests := fun _ => Except.error "boom" }

/-- A model backend on which only the Test-generator call fails. -/
def lmTestsFail : LM :=
  { onAnalyze := fun _ => Except.ok ⟨"iss", "sug"⟩,
    onOptimize := fun _ _ => Except.ok ⟨"opt"⟩,
    onTests := fun _ => Except.error "boom" }

/-- A model backend on which only the Optimizer call fails. -/
def lmOptimizeFail : LM :=
  { onAnalyze := fun _ => Except.ok ⟨"iss", "sug"⟩,
    onOptimize := fun _ _ => Except.error "boom",
    onTests := fun _ => Except.ok ⟨"tcases", "tcode"⟩ }

/-- A model backend on which only the Analyzer call fails. -/
def lmAnalyzeFail : LM :=
  { onAnalyze := fun _ => Except.error "boom",
    onOptimize := fun _ _ => Except.ok ⟨"opt"⟩,
    onTests := fun _ => Except.ok ⟨"tcases", "tcode"⟩ }

/-- Run a pipeline computation on an explicit starting trace. -/
def runState {α : Type} (x : PipeM α) (tr : List Call) :
    Except PyErr α × List Call :=
  (x.run).run tr

/-- Sequencing in `PipeM`: run the first computation; on a normal value
continue, on an uncaught exception stop. -/
theorem runState_bind {α β : Type} (x : PipeM α) (f : α → PipeM β)
    (tr : List Call) :
    runState (x >>= f) tr =
      match runState x tr with
      | (Except.ok a, tr2) => runState (f a) tr2
      | (Except.error e, tr2) => (Except.error e, tr2) := by
  simp only [runState]
  show (match (x.run).run tr with
        | (a, s) => ExceptT.bindCont f a s) = _
  rcases h : (x.run).run tr with ⟨a | a, tr2⟩ <;> rfl

/-- `pure` in `PipeM` changes nothing and returns its value. -/
theorem runState_pure {α : Type} (a : α) (tr : List Call) :
    runState (pure a : PipeM α) tr = (Except.ok a, tr) := rfl

/-- `throw` in `PipeM` produces an uncaught exception. -/
theorem runState_throw {α : Type} (e : PyErr) (tr : List Call) :
    runState (throw e : PipeM α) tr = (Except.error e, tr) := rfl

/-- `modify` in `PipeM` updates the trace. -/
theorem runState_modify (f : List Call → List Call) (tr : List Call) :
    runState (modify f : PipeM PUnit) tr = (Except.ok PUnit.unit, f tr) := rfl

/-- Embedding a pure `Except` value (a dictionary subscript) into
`PipeM` does not touch the trace. -/
theorem runState_mk_pure {α : Type} (r : Except PyErr α) (tr : List Call) :
    runState (ExceptT.mk (pure r)) tr = (r, tr) := rfl

/-- A string all of whose characters are whitespace strips to the
empty string. -/
theorem pyStrip_eq_empty (code : String)
    (h : ∀ c ∈ code.data, pyIsSpace c) : pyStrip code = "" := by
  have h1 : code.data.dropWhile pyIsSpace = [] :=
    List.dropWhile_eq_nil_iff.mpr h
  simp [pyStrip, h1]

/-- The Analyzer stage (v1) always completes normally, records exactly
one model call, and returns the two-key dictionary described by
`analyzeIssues` and `analyzeSuggestions`. -/
theorem runState_analyze_v1 (lm : LM) (code : String) (tr : List Call) :
    runState (V1.CodeAnalyzer.analyze lm code) tr =
      (Except.ok [("issues", analyzeIssues lm code),
                  ("suggestions", analyzeSuggestions lm code)],
       tr ++ [Call.analyzeLM code]) := by
  cases hA : lm.onAnalyze code <;>
    simp only [V1.CodeAnalyzer.analyze, lmCallAnalyze, runState_bind,
      runState_modify, runState_pure, analyzeIssues, analyzeSuggestions, hA]

/-- The Optimizer stage (v1) always completes normally, records
exactly one model call, and returns the string described by
`optimizeResult`. -/
theorem runState_optimize_v1 (lm : LM) (code suggestions : String)
    (tr : List Call) :
    runState (V1.CodeOptimizer.optimize lm code suggestions) tr =
      (Except.ok (optimizeResult lm code suggestions),
       tr ++ [Call.optimizeLM code suggestions]) := by
  cases hO : lm.onOptimize code suggestions <;>
    simp only [V1.CodeOptimizer.optimize, lmCallOptimize, runState_bind,
      runState_modify, runState_pure, optimizeResult, hO]

/-- The Test-generator stage (v1) always completes normally, records
exactly one model call, and returns the two-key dictionary described by
`testCasesResult` and `testCodeResult`. -/
theorem runState_tests_v1 (lm : LM) (code : String) (tr : List Call) :
    runState (V1.TestGenerator.create_tests lm code) tr =
      (Except.ok [("test_cases", testCasesResult lm code),
                  ("test_code", testCodeResult lm code)],
       tr ++ [Call.testsLM code]) := by
  cases hT : lm.onTests code <;>
    simp only [V1.TestGenerator.create_tests, lmCallTests, runState_bind,
      runState_modify, runState_pure, testCasesResult, testCodeResult, hT]

/-- Master characterization of one orchestrator run (v1): it always
terminates normally with the five-key dictionary `resultDict` and
performs exactly the three model calls `pipelineTrace`, in that
order. -/
theorem processRun_master_v1 (lm : LM) (code : String) :
    V1.CodeForge.processRun lm code =
      (Except.ok (resultDict lm code), pipelineTrace lm code) := by
  show runState (V1.CodeForge.process lm code) [] = _
  simp only [V1.CodeForge.process, runState_bind, runState_analyze_v1,
    runState_optimize_v1, runState_tests_v1, runState_mk_pure,
    runState_pure, dictGet, List.lookup, resultDict, pipelineTrace]
  simp

/-- Master characterization of one orchestrator run (v3): identical to
the v1 characterization, since the orchestrator code is identical. -/
theorem processRun_master_v3 (lm : LM) (code : String) :
    V3.CodeForge.processRun lm code =
      (Except.ok (resultDict lm code), pipelineTrace lm code) :=
  processRun_master_v1 lm code

/-- Master characterization of the UI handler (v1) on input that does
not strip to the empty string: it returns the five field values in tab
order and performs the three pipeline calls. -/
theorem process_codeRun_ok_v1 (lm : LM) (code : String)
    (h : ¬ pyStrip code = "") :
    V1.process_codeRun lm code =
      (Except.ok (analyzeIssues lm code, analyzeSuggestions lm code,
        optimizeResult lm code (analyzeSuggestions lm code),
        testCasesResult lm code, testCodeResult lm code),
       pipelineTrace lm code) := by
  show runState (V1.process_code lm code) [] = _
  have hp : V1.CodeForge.processRun lm code =
      (Except.ok (resultDict lm code), pipelineTrace lm code) :=
    processRun_master_v1 lm code
  simp only [V1.process_code, h, if_false, ite_false, eq_self_iff_true]
  simp only [runState_bind]
  rw [show runState (V1.CodeForge.process lm code) [] =
        (Except.ok (resultDict lm code), pipelineTrace lm code) from hp]
  simp only [runState_mk_pure, runState_pure, dictGet, List.lookup,
    resultDict]
  simp

/-- Master characterization of the UI handler (v1) on input that
strips to the empty string: it raises the validation `gr.Error` and
performs no model call at all. -/
theorem process_codeRun_empty_v1 (lm : LM) (code : String)
    (h : pyStrip code = "") :
    V1.process_codeRun lm code =
      (Except.error (PyErr.grError "Please input some code to analyze!"),
       []) := by
  show runState (V1.process_code lm code) [] = _
  rw [V1.process_code, if_pos h]
  rfl

/-- Master characterization of the UI handler (v3), success case:
identical to v1. -/
theorem process_codeRun_ok_v3 (lm : LM) (code : String)
    (h : ¬ pyStrip code = "") :
    V3.process_codeRun lm code =
      (Except.ok (analyzeIssues lm code, analyzeSuggestions lm code,
        optimizeResult lm code (analyzeSuggestions lm code),
        testCasesResult lm code, testCodeResult lm code),
       pipelineTrace lm code) :=
  process_codeRun_ok_v1 lm code h

/-- Master characterization of the UI handler (v3), validation case:
identical to v1. -/
theorem process_codeRun_empty_v3 (lm : LM) (code : String)
    (h : pyStrip code = "") :
    V3.process_codeRun lm code =
      (Except.error (PyErr.grError "Please input some code to analyze!"),
       []) :=
  process_codeRun_empty_v1 lm code h

/-- Claim C1: for every non-empty input string, the pipeline
orchestrator (`CodeForge.process`, in both variants) returns a
dictionary whose keys are exactly `issues`, `suggestions`,
`optimized_code`, `test_cases`, `test_code` (all values strings by
type), none absent, for every model behaviour — i.e. in the success
case and in every stage-failure case. -/
theorem claim_C1 (lm : LM) (code : String) (h : code ≠ "") :
    (∃ d tr, V1.CodeForge.processRun lm code = (Except.ok d, tr) ∧
      d.map Prod.fst =
        ["issues", "suggestions", "optimized_code", "test_cases",
         "test_code"]) ∧
    (∃ d tr, V3.CodeForge.processRun lm code = (Except.ok d, tr) ∧
      d.map Prod.fst =
        ["issues", "suggestions", "optimized_code", "test_cases",
         "test_code"]) := by
  refine ⟨⟨resultDict lm code, pipelineTrace lm code,
      processRun_master_v1 lm code, ?_⟩,
    ⟨resultDict lm code, pipelineTrace lm code,
      processRun_master_v3 lm code, ?_⟩⟩ <;>
    simp [resultDict]

/-- Witness for C1 at a concrete non-empty input and an all-successful
model backend. -/
theorem claim_C1_witness :
    ("x" : String) ≠ "" ∧
    ((∃ d tr, V1.CodeForge.processRun lmAllOk "x" = (Except.ok d, tr) ∧
      d.map Prod.fst =
        ["issues", "suggestions", "optimized_code", "test_cases",
         "test_code"]) ∧
    (∃ d tr, V3.CodeForge.processRun lmAllOk "x" = (Except.ok d, tr) ∧
      d.map Prod.fst =
        ["issues", "suggestions", "optimized_code", "test_cases",
         "test_code"])) :=
  ⟨by decide, claim_C1 lmAllOk "x" (by decide)⟩

/-- Claim C2: whenever the underlying model call inside a stage raises
an exception with message `e`, the stage completes normally (the
exception does not propagate) and embeds the placeholder text in its
own output: the Analyzer puts the error message in `issues`, the
Optimizer returns it in its single string, the Test-generator puts it
in `test_cases`. -/
theorem claim_C2 (lm : LM) (code suggestions e : String)
    (tr : List Call) :
    (lm.onAnalyze code = Except.error e →
      runState (V1.CodeAnalyzer.analyze lm code) tr =
        (Except.ok [("issues", "Analysis error: " ++ e),
                    ("suggestions", "No suggestions available")],
         tr ++ [Call.analyzeLM code])) ∧
    (lm.onOptimize code suggestions = Except.error e →
      runState (V1.CodeOptimizer.optimize lm code suggestions) tr =
        (Except.ok ("Optimization error: " ++ e),
         tr ++ [Call.optimizeLM code suggestions])) ∧
    (lm.onTests code = Except.error e →
      runState (V1.TestGenerator.create_tests lm code) tr =
        (Except.ok [("test_cases", "Test generation failed: " ++ e),
                    ("test_code", "Unable to generate test code")],
         tr ++ [Call.testsLM code])) := by
  refine ⟨fun hA => ?_, fun hO => ?_, fun hT => ?_⟩
  · rw [runState_analyze_v1]
    simp [analyzeIssues, analyzeSuggestions, hA]
  · rw [runState_optimize_v1]
    simp [optimizeResult, hO]
  · rw [runState_tests_v1]
    simp [testCasesResult, testCodeResult, hT]

/-- Witness for C2 at a model backend on which every call raises. -/
theorem claim_C2_witness :
    runState (V1.CodeAnalyzer.analyze lmAllFail "c") [] =
      (Except.ok [("issues", "Analysis error: boom"),
                  ("suggestions", "No suggestions available")],
       [Call.analyzeLM "c"]) ∧
    runState (V1.CodeOptimizer.optimize lmAllFail "c" "s") [] =
      (Except.ok "Optimization error: boom",
       [Call.optimizeLM "c" "s"]) ∧
    runState (V1.TestGenerator.create_tests lmAllFail "c") [] =
      (Except.ok [("test_cases", "Test generation failed: boom"),
                  ("test_code", "Unable to generate test code")],
       [Call.testsLM "c"]) :=
  ⟨(claim_C2 lmAllFail "c" "s" "boom" []).1 rfl,
   (claim_C2 lmAllFail "c" "s" "boom" []).2.1 rfl,
   (claim_C2 lmAllFail "c" "s" "boom" []).2.2 rfl⟩

/-- Claim C3: if the Analyzer's model call fails, the orchestrator
still runs the Optimizer, passing it the Analyzer's placeholder
`No suggestions available` as the `suggestions` argument (visible in
the recorded call), with no special-casing: the placeholder flows
downstream as ordinary text and the run completes normally. -/
theorem claim_C3 (lm : LM) (code e : String)
    (hA : lm.onAnalyze code = Except.error e) :
    V1.CodeForge.processRun lm code =
      (Except.ok [("issues", "Analysis error: " ++ e),
                  ("suggestions", "No suggestions available"),
                  ("optimized_code",
                    optimizeResult lm code "No suggestions available"),
                  ("test_cases", testCasesResult lm code),
                  ("test_code", testCodeResult lm code)],
       [Call.analyzeLM code,
        Call.optimizeLM code "No suggestions available",
        Call.testsLM code]) := by
  rw [processRun_master_v1]
  simp [resultDict, pipelineTrace, analyzeIssues, analyzeSuggestions, hA]

/-- Witness for C3 at a model backend on which only the Analyzer call
fails. -/
theorem claim_C3_witness :
    lmAnalyzeFail.onAnalyze "c" = Except.error "boom" ∧
    V1.CodeForge.processRun lmAnalyzeFail "c" =
      (Except.ok [("issues", "Analysis error: boom"),
                  ("suggestions", "No suggestions available"),
                  ("optimized_code", "opt"),
                  ("test_cases", "tcases"),
                  ("test_code", "tcode")],
       [Call.analyzeLM "c",
        Call.optimizeLM "c" "No suggestions available",
        Call.testsLM "c"]) :=
  ⟨rfl, claim_C3 lmAnalyzeFail "c" "boom" rfl⟩

/-- Claim C4: for every input string consisting only of whitespace
(including the empty string), the UI handler `process_code` (both
variants) raises the user-visible validation `gr.Error` before any
model call is made (the call trace is empty, so the orchestrator is
never invoked) and produces no result record. -/
theorem claim_C4 (lm : LM) (code : String)
    (h : ∀ c ∈ code.data, pyIsSpace c) :
    V1.process_codeRun lm code =
      (Except.error
        (PyErr.grError "Please input some code to analyze!"), []) ∧
    V3.process_codeRun lm code =
      (Except.error
        (PyErr.grError "Please input some code to analyze!"), []) :=
  ⟨process_codeRun_empty_v1 lm code (pyStrip_eq_empty code h),
   process_codeRun_empty_v3 lm code (pyStrip_eq_empty code h)⟩

/-- Witness for C4 at a concrete whitespace-only input. -/
theorem claim_C4_witness :
    (∀ c ∈ (" \t\n" : String).data, pyIsSpace c) ∧
    (V1.process_codeRun lmAllOk " \t\n" =
      (Except.error
        (PyErr.grError "Please input some code to analyze!"), []) ∧
    V3.process_codeRun lmAllOk " \t\n" =
      (Except.error
        (PyErr.grError "Please input some code to analyze!"), [])) :=
  ⟨by decide, claim_C4 lmAllOk " \t\n" (by decide)⟩

/-- Claim C5: every orchestrator run performs exactly the three model
calls in the fixed order Analyzer, Optimizer, Test-generator; the
Optimizer call consumes the Analyzer's `suggestions` output, and the
Test-generator call receives only the original source code,
independent of the other stages' outputs. -/
theorem claim_C5 (lm : LM) (code : String) :
    V1.CodeForge.processRun lm code =
      (Except.ok
        [("issues", analyzeIssues lm code),
         ("suggestions", analyzeSuggestions lm code),
         ("optimized_code",
           optimizeResult lm code (analyzeSuggestions lm code)),
         ("test_cases", testCasesResult lm code),
         ("test_code", testCodeResult lm code)],
       [Call.analyzeLM code,
        Call.optimizeLM code (analyzeSuggestions lm code),
        Call.testsLM code]) :=
  processRun_master_v1 lm code

/-- Claim C6: if the Test-generator's model call fails while Analyzer
and Optimizer succeed, the `issues`, `suggestions` and
`optimized_code` fields of the result are exactly the successful
stages' outputs, and only `test_cases` and `test_code` carry the
placeholder text. -/
theorem claim_C6 (lm : LM) (code e : String) (pA : AnalyzePrediction)
    (pO : OptimizePrediction)
    (hA : lm.onAnalyze code = Except.ok pA)
    (hO : lm.onOptimize code pA.suggestions = Except.ok pO)
    (hT : lm.onTests code = Except.error e) :
    V1.CodeForge.processRun lm code =
      (Except.ok [("issues", pA.issues),
                  ("suggestions", pA.suggestions),
                  ("optimized_code", pO.optimized_code),
                  ("test_cases", "Test generation failed: " ++ e),
                  ("test_code", "Unable to generate test code")],
       [Call.analyzeLM code,
        Call.optimizeLM code pA.suggestions,
        Call.testsLM code]) := by
  rw [processRun_master_v1]
  simp [resultDict, pipelineTrace, analyzeIssues, analyzeSuggestions,
    optimizeResult, testCasesResult, testCodeResult, hA, hO, hT]

/-- Witness for C6 at a model backend on which only the Test-generator
call fails. -/
theorem claim_C6_witness :
    lmTestsFail.onTests "c" = Except.error "boom" ∧
    V1.CodeForge.processRun lmTestsFail "c" =
      (Except.ok [("issues", "iss"),
                  ("suggestions", "sug"),
                  ("optimized_code", "opt"),
                  ("test_cases", "Test generation failed: boom"),
                  ("test_code", "Unable to generate test code")],
       [Call.analyzeLM "c",
        Call.optimizeLM "c" "sug",
        Call.testsLM "c"]) :=
  ⟨rfl, claim_C6 lmTestsFail "c" "boom" ⟨"iss", "sug"⟩ ⟨"opt"⟩
    rfl rfl rfl⟩

/-- Claim C7: the orchestrator (both variants) is total: for every
model behaviour — including one on which every call fails — the run
terminates normally (`Except.ok`, never an uncaught exception),
because each stage absorbs its own failure and always returns a
dictionary containing the keys the orchestrator accesses. -/
theorem claim_C7 (lm : LM) (code : String) :
    (∃ d, V1.CodeForge.processRun lm code =
      (Except.ok d, pipelineTrace lm code)) ∧
    (∃ d, V3.CodeForge.processRun lm code =
      (Except.ok d, pipelineTrace lm code)) :=
  ⟨⟨resultDict lm code, processRun_master_v1 lm code⟩,
   ⟨resultDict lm code, processRun_master_v3 lm code⟩⟩

/-- Counterexample to claim C8 as stated: the claim asserts the two
variants' configuration behaves identically, but the configured model
identifiers differ (`codellama:7b` vs `llama3.2:3b`). -/
theorem claim_C8_counterexample :
    V1.lmConfig.model ≠ V3.lmConfig.model := by
  decide

/-- Claim C8 (amended): apart from the stages' internal prompting
mechanism, the two variants' pipeline orchestrators, field assembly
and validation are identical functions of the model behaviour; their
configurations share device and temperature but differ in the selected
model identifier. -/
theorem claim_C8 :
    (∀ (lm : LM) (code : String),
      V1.CodeForge.process lm code = V3.CodeForge.process lm code) ∧
    (∀ (lm : LM) (code : String),
      V1.process_code lm code = V3.process_code lm code) ∧
    V1.lmConfig.device = V3.lmConfig.device ∧
    V1.lmConfig.temperature = V3.lmConfig.temperature ∧
    V1.lmConfig.model ≠ V3.lmConfig.model :=
  ⟨fun _ _ => rfl, fun _ _ => rfl, rfl, rfl, by decide⟩

/-- Claim C9: each of the six tool functions attached to the ReAct
programs in the tool-augmented variant returns a fixed static
descriptive string, independent of its argument: for any two inputs
the returned strings are equal, so the tools perform no analysis,
refactoring, or test execution. -/
theorem claim_C9 :
    (∀ x, V3.CodeAnalyzer._analyze_code x =
      "Analyzing code for potential issues...") ∧
    (∀ x y, V3.CodeAnalyzer._analyze_code x =
      V3.CodeAnalyzer._analyze_code y) ∧
    (∀ x, V3.CodeAnalyzer._generate_suggestions x =
      "Generating optimization suggestions based on issues...") ∧
    (∀ x y, V3.CodeAnalyzer._generate_suggestions x =
      V3.CodeAnalyzer._generate_suggestions y) ∧
    (∀ x, V3.CodeOptimizer._optimize_code x =
      "Optimizing code structure...") ∧
    (∀ x y, V3.CodeOptimizer._optimize_code x =
      V3.CodeOptimizer._optimize_code y) ∧
    (∀ x, V3.CodeOptimizer._refactor_code x =
      "Refactoring code for better readability...") ∧
    (∀ x y, V3.CodeOptimizer._refactor_code x =
      V3.CodeOptimizer._refactor_code y) ∧
    (∀ x, V3.TestGenerator._generate_test_cases x =
      "Generating test cases...") ∧
    (∀ x y, V3.TestGenerator._generate_test_cases x =
      V3.TestGenerator._generate_test_cases y) ∧
    (∀ x, V3.TestGenerator._write_test_code x =
      "Writing test code implementation...") ∧
    (∀ x y, V3.TestGenerator._write_test_code x =
      V3.TestGenerator._write_test_code y) :=
  ⟨fun _ => rfl, fun _ _ => rfl, fun _ => rfl, fun _ _ => rfl,
   fun _ => rfl, fun _ _ => rfl, fun _ => rfl, fun _ _ => rfl,
   fun _ => rfl, fun _ _ => rfl, fun _ => rfl, fun _ _ => rfl⟩

/-- Claim C10: if the Optimizer's model call fails while Analyzer and
Test-generator succeed, the `issues`, `suggestions`, `test_cases` and
`test_code` fields are exactly those stages' outputs; only
`optimized_code` carries the placeholder, and the `suggestions` field
of the record is character-for-character the string that was passed to
the Optimizer (visible in the recorded call). -/
theorem claim_C10 (lm : LM) (code e : String) (pA : AnalyzePrediction)
    (pT : TestsPrediction)
    (hA : lm.onAnalyze code = Except.ok pA)
    (hO : lm.onOptimize code pA.suggestions = Except.error e)
    (hT : lm.onTests code = Except.ok pT) :
    V1.CodeForge.processRun lm code =
      (Except.ok [("issues", pA.issues),
                  ("suggestions", pA.suggestions),
                  ("optimized_code", "Optimization error: " ++ e),
                  ("test_cases", pT.test_cases),
                  ("test_code", pT.test_code)],
       [Call.analyzeLM code,
        Call.optimizeLM code pA.suggestions,
        Call.testsLM code]) := by
  rw [processRun_master_v1]
  simp [resultDict, pipelineTrace, analyzeIssues, analyzeSuggestions,
    optimizeResult, testCasesResult, testCodeResult, hA, hO, hT]

/-- Witness for C10 at a model backend on which only the Optimizer
call fails. -/
theorem claim_C10_witness :
    lmOptimizeFail.onOptimize "c" "sug" = Except.error "boom" ∧
    V1.CodeForge.processRun lmOptimizeFail "c" =
      (Except.ok [("issues", "iss"),
                  ("suggestions", "sug"),
                  ("optimized_code", "Optimization error: boom"),
                  ("test_cases", "tcases"),
                  ("test_code", "tcode")],
       [Call.analyzeLM "c",
        Call.optimizeLM "c" "sug",
        Call.testsLM "c"]) :=
  ⟨rfl, claim_C10 lmOptimizeFail "c" "boom" ⟨"iss", "sug"⟩
    ⟨"tcases", "tcode"⟩ rfl rfl rfl⟩
